import Mathlib

/-!
Verification of the power-mode profile manager (`power-mode.py`).

The Python program is shallowly embedded: sysfs reads/writes over CPU cores
become explicit state passing over a `Sys` record, per-write I/O failures and
injected exceptions are driven by an `Oracle`, and every attempted hardware
write is logged in a trace of `Action`s so that claims of the form "no write
is issued" can be stated exactly.
-/

namespace PowerMode

/-- One attempted hardware write, as issued by the managers: a write to a
core's `online` flag, to `scaling_governor`, to `scaling_max_freq`, or one
invocation of the external GPU vendor tool (`nvidia-smi`). -/
inductive Action where
  | writeOnline (core : Nat) (val : Nat)
  | writeGovernor (core : Nat) (gov : String)
  | writeMaxFreq (core : Nat) (khz : Int)
  | gpuTool (args : List String)
deriving DecidableEq

/-- Live hardware state as seen through sysfs and the GPU tool.
Cores are the directories `cpu0 .. cpu(ncores-1)`.  A flag/file value of
`none` models an absent (or unparsable) file. -/
@[ext]
structure Sys where
  ncores : Nat
  onlineFlag : Nat → Option Nat
  governor : Nat → Option String
  maxFreq : Nat → Option Int
  gpuAvailable : Bool
  gpuPowerLimit : Option Int
  gpuClocks : Option (Int × Int)
  machineIdFile : Option String
  onAC : Bool

/-- Environment oracle: which per-file writes succeed (the Python code
catches `FileNotFoundError`/`PermissionError` per write), the GPU tool's
exit code, whether the bookkeeping file writes succeed, and where an
unexpected exception is injected (`raiseAfter` counts completed sub-steps
of `apply_mode`'s application phase, `restoreRaiseAfter` counts completed
setter calls inside `Snapshot.restore`). -/
structure Oracle where
  wOnline : Nat → Bool
  wGov : Nat → Bool
  wFreq : Nat → Bool
  gpuExit : Int
  saveBackupOk : Bool
  recordOk : Bool
  clearOk : Bool
  raiseAfter : Option Nat
  restoreRaiseAfter : Option Nat

/-! ## CPUManager -/

/-- Most-significant-first decimal digits of `n` (fuel-driven so it reduces
in the kernel); `0` maps to `[]`, which compares below every other digit
string, exactly as the character `"0"` sorts below `"1" .. "9"`. -/
def digitsAux : Nat → Nat → List Nat
  | _, 0 => []
  | 0, _ + 1 => []
  | fuel + 1, n + 1 => digitsAux fuel ((n + 1) / 10) ++ [(n + 1) % 10]

/-- Decimal digits of a core id, used to compare directory names. -/
def decDigits (n : Nat) : List Nat := digitsAux n n

/-- Lexicographic order on digit strings. -/
def lexLt : List Nat → List Nat → Bool
  | [], [] => false
  | [], _ :: _ => true
  | _ :: _, [] => false
  | a :: as, b :: bs => if a < b then true else if b < a then false else lexLt as bs

/-- `nameLt a b` iff the directory name `cpu<a>` sorts strictly before
`cpu<b>` as a string: the common prefix `cpu` is irrelevant and the decimal
suffixes compare character-wise, i.e. digit-wise. -/
def nameLt (a b : Nat) : Bool := lexLt (decDigits a) (decDigits b)

/-- Lexicographic insertion of a core id into a list already sorted by the
decimal string of the id (Python's `sorted` on the glob result sorts the
directory *names*). -/
def insertLex (a : Nat) : List Nat → List Nat
  | [] => [a]
  | b :: l => if nameLt b a then b :: insertLex a l else a :: b :: l

/-- Sort core ids by their decimal-string representation, mirroring
`sorted(glob.glob(".../cpu[0-9]*"))` in `CPUManager.get_online_cores`. -/
def sortLex : List Nat → List Nat
  | [] => []
  | a :: l => insertLex a (sortLex l)

/-- The order in which `get_online_cores` visits core directories:
all of `cpu0 .. cpu(n-1)` sorted lexicographically by name. -/
def cpuDirOrder (n : Nat) : List Nat := sortLex (List.range n)

/-- Whether `get_online_cores` lists core `n` as online: core 0 always;
otherwise online iff its flag file reads `1`, and an absent/unreadable flag
file counts as online. -/
def coreListedOnline (s : Sys) (n : Nat) : Bool :=
  if n = 0 then true
  else match s.onlineFlag n with
    | some v => v == 1
    | none => true

/-- `CPUManager.get_online_cores`: enumerate core directories in name order
and keep those listed online. -/
def get_online_cores (s : Sys) : List Nat :=
  (cpuDirOrder s.ncores).filter (coreListedOnline s)

/-- `CPUManager._get_all_cores`: all core ids, numerically sorted. -/
def allCores (s : Sys) : List Nat := List.range s.ncores

/-- Loop body of `CPUManager.set_online_cores`: walk the cores, skip core 0,
and for every other core attempt to write `1` if it is in `cores` else `0`;
a failed write (oracle says false) is logged and skipped. -/
def setCoresAux (o : Oracle) (cores : List Nat) : List Nat → Sys → Sys × List Action
  | [], s => (s, [])
  | n :: rest, s =>
    if n = 0 then setCoresAux o cores rest s
    else
      let v : Nat := if n ∈ cores then 1 else 0
      let s1 := if o.wOnline n then
          { s with onlineFlag := fun m => if m = n then some v else s.onlineFlag m }
        else s
      let r := setCoresAux o cores rest s1
      (r.1, Action.writeOnline n v :: r.2)

/-- `CPUManager.set_online_cores`. -/
def set_online_cores (o : Oracle) (cores : List Nat) (s : Sys) : Sys × List Action :=
  setCoresAux o cores (allCores s) s

/-- `CPUManager.get_governor`: read from core 0. -/
def get_governor (s : Sys) : Option String := s.governor 0

/-- Loop body of `CPUManager.set_governor` over a fixed core list. -/
def setGovAux (o : Oracle) (g : String) : List Nat → Sys → Sys × List Action
  | [], s => (s, [])
  | n :: rest, s =>
    let s1 := if o.wGov n then
        { s with governor := fun m => if m = n then some g else s.governor m }
      else s
    let r := setGovAux o g rest s1
    (r.1, Action.writeGovernor n g :: r.2)

/-- `CPUManager.set_governor`: applied to every currently online core. -/
def set_governor (o : Oracle) (g : String) (s : Sys) : Sys × List Action :=
  setGovAux o g (get_online_cores s) s

/-- `CPUManager.get_max_freq`: read from core 0, in kHz. -/
def get_max_freq (s : Sys) : Option Int := s.maxFreq 0

/-- Loop body of `CPUManager.set_max_freq` over a fixed core list. -/
def setFreqAux (o : Oracle) (khz : Int) : List Nat → Sys → Sys × List Action
  | [], s => (s, [])
  | n :: rest, s =>
    let s1 := if o.wFreq n then
        { s with maxFreq := fun m => if m = n then some khz else s.maxFreq m }
      else s
    let r := setFreqAux o khz rest s1
    (r.1, Action.writeMaxFreq n khz :: r.2)

/-- `CPUManager.set_max_freq`: the online-core list is computed first, then
the sanity check rejects (no write at all) any value outside
[400000, 6000000] kHz; otherwise each online core's limit is written. -/
def set_max_freq (o : Oracle) (khz : Int) (s : Sys) : Sys × List Action :=
  let online := get_online_cores s
  if khz < 400000 ∨ khz > 6000000 then (s, [])
  else setFreqAux o khz online s

/-! ## GPUManager -/

/-- `GPUManager.get_power_limit`: `none` when no GPU tool is available. -/
def get_power_limit (s : Sys) : Option Int :=
  if s.gpuAvailable then s.gpuPowerLimit else none

/-- `GPUManager.get_clock_limits`. -/
def get_clock_limits (s : Sys) : Option (Int × Int) :=
  if s.gpuAvailable then s.gpuClocks else none

/-- `GPUManager.set_power_limit`: refuse without a GPU, refuse values outside
[10, 150] W before invoking the tool; a tool invocation is recorded in the
trace, a non-zero exit code is logged and the limit is left unchanged. -/
def set_power_limit (o : Oracle) (w : Int) (s : Sys) : Sys × List Action :=
  if ¬ s.gpuAvailable then (s, [])
  else if w < 10 ∨ w > 150 then (s, [])
  else
    (if o.gpuExit = 0 then { s with gpuPowerLimit := some w } else s,
     [Action.gpuTool ["nvidia-smi", "-pl", toString w]])

/-- `GPUManager.set_clock_limits`: explicitly unimplemented; only warns. -/
def set_clock_limits (_mn _mx : Option Int) (s : Sys) : Sys × List Action :=
  (s, [])

/-! ## Snapshot documents -/

/-- The `cpu` block of a snapshot document.  `none` models an absent key or
a JSON `null` value (the code treats both alike). -/
structure CpuSnap where
  online_cores : Option (List Nat)
  governor : Option String
  max_freq_khz : Option Int
deriving DecidableEq

/-- The `gpu` block of a snapshot document. -/
structure GpuSnap where
  available : Bool
  backend : Option String
  power_limit_w : Option Int
  clocks : Option (Int × Int)
deriving DecidableEq

/-- A snapshot document as written to / read from `backup.json`. -/
structure Snap where
  timestamp : String
  machine_id : String
  cpu : Option CpuSnap
  gpu : Option GpuSnap
  on_ac_power : Bool
deriving DecidableEq

/-- `CPUManager.get_current_state`. -/
def cpu_get_current_state (s : Sys) : CpuSnap :=
  { online_cores := some (get_online_cores s),
    governor := get_governor s,
    max_freq_khz := get_max_freq s }

/-- `GPUManager.get_current_state`: `{"available": false}` without a GPU. -/
def gpu_get_current_state (s : Sys) : GpuSnap :=
  if s.gpuAvailable then
    { available := true, backend := some "nvidia",
      power_limit_w := get_power_limit s, clocks := get_clock_limits s }
  else
    { available := false, backend := none, power_limit_w := none, clocks := none }

/-- `Snapshot._get_machine_id`: best-effort, `"unknown"` on failure. -/
def get_machine_id (s : Sys) : String := s.machineIdFile.getD "unknown"

/-- `Snapshot.dump`: capture the current system state. -/
def Snapshot.dump (s : Sys) (now : String) : Snap :=
  { timestamp := now,
    machine_id := get_machine_id s,
    cpu := some (cpu_get_current_state s),
    gpu := some (gpu_get_current_state s),
    on_ac_power := s.onAC }

/-- One hardware-manager call, as issued by `Snapshot.restore` and by the
application phase of `ModeManager.apply_mode`. -/
inductive HwOp where
  | setOnlineCores (cores : List Nat)
  | setGovernor (g : String)
  | setMaxFreq (khz : Int)
  | setGpuPowerLimit (w : Int)
  | setGpuClockLimits (mn mx : Option Int)
deriving DecidableEq

/-- Execute one manager call against the hardware state. -/
def runHwOp (o : Oracle) (op : HwOp) (s : Sys) : Sys × List Action :=
  match op with
  | .setOnlineCores l => set_online_cores o l s
  | .setGovernor g => set_governor o g s
  | .setMaxFreq k => set_max_freq o k s
  | .setGpuPowerLimit w => set_power_limit o w s
  | .setGpuClockLimits mn mx => set_clock_limits mn mx s

/-- Execute a list of manager calls in order, concatenating their traces. -/
def runHwOps (o : Oracle) : List HwOp → Sys → Sys × List Action
  | [], s => (s, [])
  | op :: rest, s =>
    let r1 := runHwOp o op s
    let r2 := runHwOps o rest r1.1
    (r2.1, r1.2 ++ r2.2)

/-- The manager calls `Snapshot.restore` makes for a given document: each
field is replayed only when its key is present with a truthy value (Python
truthiness: a non-empty list, a non-empty string, a non-zero number), and
the GPU power limit only when the snapshot marks the GPU available. -/
def restoreOps (snap : Snap) : List HwOp :=
  (match snap.cpu with
   | some cpu =>
     (match cpu.online_cores with
      | some l => if l = [] then [] else [HwOp.setOnlineCores l]
      | none => []) ++
     (match cpu.governor with
      | some g => if g = "" then [] else [HwOp.setGovernor g]
      | none => []) ++
     (match cpu.max_freq_khz with
      | some k => if k = 0 then [] else [HwOp.setMaxFreq k]
      | none => [])
   | none => []) ++
  (match snap.gpu with
   | some g =>
     if g.available then
       match g.power_limit_w with
       | some w => if w = 0 then [] else [HwOp.setGpuPowerLimit w]
       | none => []
     else []
   | none => [])

/-- `Snapshot.restore`: replay the document's truthy fields in order; an
unexpected exception injected after `j` setter calls is caught by the
surrounding handler and reported as failure (`false`), with the already
executed calls left in place. -/
def Snapshot.restore (o : Oracle) (snap : Snap) (s : Sys) :
    (Sys × List Action) × Bool :=
  let ops := restoreOps snap
  match o.restoreRaiseAfter with
  | none => (runHwOps o ops s, true)
  | some j =>
    if ops.length ≤ j then (runHwOps o ops s, true)
    else (runHwOps o (ops.take j) s, false)

/-! ## Mode documents and the catalog -/

/-- Shape of the `online_cores` entry of a mode document: an explicit list
of integers, or any other (unsupported) shape. -/
inductive CoresSpec where
  | intList (l : List Nat)
  | other
deriving DecidableEq

/-- `ModeManager._parse_online_cores`: accept an explicit integer list;
any other shape is warned about and yields the empty list. -/
def parse_online_cores : CoresSpec → List Nat
  | .intList l => l
  | .other => []

/-- The `cpu` block of a mode document (`none` = key absent). -/
structure CpuMode where
  online_cores : Option CoresSpec
  governor : Option String
  max_freq_mhz : Option Int
deriving DecidableEq

/-- The `gpu` block of a mode document. -/
structure GpuMode where
  power_limit_w : Option Int
  gpu_clock_min_mhz : Option Int
  gpu_clock_max_mhz : Option Int
deriving DecidableEq

/-- A mode document from `modes.json`. -/
structure Mode where
  cpu : Option CpuMode
  gpu : Option GpuMode
deriving DecidableEq

/-- The `active.json` record. -/
structure ActiveRec where
  mode : String
  timestamp : String
  config_path : String
deriving DecidableEq

/-- Persistent files owned by `ModeManager`: the backup document and the
active-mode record (`none` = file absent or unparsable). -/
structure Store where
  backup : Option Snap
  active : Option ActiveRec
deriving DecidableEq

/-- `Snapshot.load` of the backup path: `none` when the file is missing or
unparsable. -/
def Snapshot.load (st : Store) : Option Snap := st.backup

/-- Loading `modes.json` and resolving a name, mirroring
`if not modes or mode_name not in modes` (a failed load and an empty
catalog are both falsy). -/
def lookupMode (modes : Option (List (String × Mode))) (name : String) : Option Mode :=
  match modes with
  | none => none
  | some l => if l = [] then none else l.lookup name

/-- One sub-step of `apply_mode`'s application phase: a hardware-manager
call, or the final write of the active-mode record. -/
inductive Step where
  | hw (op : HwOp)
  | record
deriving DecidableEq

/-- Execute one apply sub-step. -/
def runStep (o : Oracle) (name now cfgPath : String) (st : Store) (s : Sys) :
    Step → (Store × Sys) × List Action
  | .hw op =>
    let r := runHwOp o op s
    ((st, r.1), r.2)
  | .record =>
    if o.recordOk then
      (({ st with active := some ⟨name, now, cfgPath⟩ }, s), [])
    else ((st, s), [])

/-- Execute a list of apply sub-steps in order. -/
def runSteps (o : Oracle) (name now cfgPath : String) :
    List Step → Store × Sys → (Store × Sys) × List Action
  | [], p => (p, [])
  | stp :: rest, p =>
    let r1 := runStep o name now cfgPath p.1 p.2 stp
    let r2 := runSteps o name now cfgPath rest r1.1
    (r2.1, r1.2 ++ r2.2)

/-- The cpu-block manager calls of `apply_mode` (presence checks only). -/
def cpuModeOps (c : CpuMode) : List HwOp :=
  (match c.online_cores with
   | some spec =>
     let cores := parse_online_cores spec
     if cores = [] then [] else [HwOp.setOnlineCores cores]
   | none => []) ++
  (match c.governor with
   | some g => [HwOp.setGovernor g]
   | none => []) ++
  (match c.max_freq_mhz with
   | some m => [HwOp.setMaxFreq (m * 1000)]
   | none => [])

/-- The gpu-block manager calls of `apply_mode`. -/
def gpuModeOps (g : GpuMode) : List HwOp :=
  (match g.power_limit_w with
   | some w => [HwOp.setGpuPowerLimit w]
   | none => []) ++
  (if g.gpu_clock_min_mhz.isSome || g.gpu_clock_max_mhz.isSome then
     [HwOp.setGpuClockLimits g.gpu_clock_min_mhz g.gpu_clock_max_mhz]
   else [])

/-- The full sub-step sequence of `apply_mode`'s try-block: cpu calls, gpu
calls (only when a GPU is available), then recording the active mode. -/
def modeSteps (gpuAvail : Bool) (m : Mode) : List Step :=
  ((match m.cpu with
    | some c => cpuModeOps c
    | none => []) ++
   (match m.gpu with
    | some g => if gpuAvail then gpuModeOps g else []
    | none => [])).map Step.hw
  ++ [Step.record]

/-- `ModeManager.apply_mode`.  An unknown mode (or failed catalog load)
aborts before any side effect.  Otherwise the current state is saved as the
backup document (best-effort), the mode's sub-steps run; an exception
injected after `k` completed sub-steps triggers the rollback path: reload
the backup file and, when it loads, replay it via `Snapshot.restore`,
returning `false` regardless of the rollback's outcome. -/
def apply_mode (o : Oracle) (modes : Option (List (String × Mode)))
    (name now cfgPath : String) (st : Store) (s : Sys) :
    (Store × Sys × List Action) × Bool :=
  match lookupMode modes name with
  | none => ((st, s, []), false)
  | some mode =>
    let st1 := if o.saveBackupOk then { st with backup := some (Snapshot.dump s now) } else st
    let steps := modeSteps s.gpuAvailable mode
    match o.raiseAfter with
    | none =>
      let r := runSteps o name now cfgPath steps (st1, s)
      ((r.1.1, r.1.2, r.2), true)
    | some k =>
      if steps.length ≤ k then
        let r := runSteps o name now cfgPath steps (st1, s)
        ((r.1.1, r.1.2, r.2), true)
      else
        let r := runSteps o name now cfgPath (steps.take k) (st1, s)
        match Snapshot.load r.1.1 with
        | none => ((r.1.1, r.1.2, r.2), false)
        | some b =>
          let rb := Snapshot.restore o b r.1.2
          ((r.1.1, rb.1.1, r.2 ++ rb.1.2), false)

/-- `ModeManager.restore_backup`: a missing/unparsable backup is a reported
failure with no state change; otherwise replay it and, only on success,
attempt to delete the active-mode record. -/
def restore_backup (o : Oracle) (st : Store) (s : Sys) :
    (Store × Sys × List Action) × Bool :=
  match Snapshot.load st with
  | none => ((st, s, []), false)
  | some b =>
    let r := Snapshot.restore o b s
    if r.2 then
      let st2 := if o.clearOk then { st with active := none } else st
      ((st2, r.1.1, r.1.2), true)
    else ((st, r.1.1, r.1.2), false)

/-! ## Concrete sample systems and oracles used by witnesses -/

/-- Oracle of a fully healthy environment: every write succeeds, the GPU
tool exits 0, bookkeeping writes succeed, no exception is injected. -/
def oracleOk : Oracle :=
  { wOnline := fun _ => true, wGov := fun _ => true, wFreq := fun _ => true,
    gpuExit := 0, saveBackupOk := true, recordOk := true, clearOk := true,
    raiseAfter := none, restoreRaiseAfter := none }

/-- A small two-core machine without a GPU. -/
def sys2 : Sys :=
  { ncores := 2, onlineFlag := fun _ => some 1,
    governor := fun _ => some "powersave", maxFreq := fun _ => some 2000000,
    gpuAvailable := false, gpuPowerLimit := none, gpuClocks := none,
    machineIdFile := some "m1", onAC := true }

/-- A twelve-core machine (enough cores for the name-ordering of the core
directories to differ from numeric ordering). -/
def sys12 : Sys :=
  { ncores := 12, onlineFlag := fun _ => some 1,
    governor := fun _ => some "powersave", maxFreq := fun _ => some 2000000,
    gpuAvailable := true, gpuPowerLimit := some 80, gpuClocks := some (210, 405),
    machineIdFile := some "m2", onAC := false }

/-- Rank of a manager call in the fixed replay order of `Snapshot.restore`:
online cores, then governor, then max frequency, then GPU power limit. -/
def opKind : HwOp → Nat
  | .setOnlineCores _ => 0
  | .setGovernor _ => 1
  | .setMaxFreq _ => 2
  | .setGpuPowerLimit _ => 3
  | .setGpuClockLimits _ _ => 4

/-- Rank of a hardware write, aligned with `opKind`: each manager call only
emits writes of its own rank. -/
def actionKind : Action → Nat
  | .writeOnline _ _ => 0
  | .writeGovernor _ _ => 1
  | .writeMaxFreq _ _ => 2
  | .gpuTool _ => 3

/-- An empty persistent store: no backup document, no active-mode record. -/
def st0 : Store := { backup := none, active := none }

/-- A sample "turbo" mode document. -/
def turboMode : Mode :=
  { cpu := some { online_cores := none, governor := some "performance",
                  max_freq_mhz := some 3000 },
    gpu := none }

/-- A one-entry mode catalog holding `turboMode` under the name "turbo". -/
def cat1 : List (String × Mode) := [("turbo", turboMode)]

/-- An environment where the application phase of `apply_mode` raises
immediately and the subsequent rollback restore succeeds. -/
def oRollOk : Oracle := { oracleOk with raiseAfter := some 0 }

/-- An environment where the application phase of `apply_mode` raises
immediately and the rollback restore itself raises as well. -/
def oRollFail : Oracle :=
  { oracleOk with raiseAfter := some 0, restoreRaiseAfter := some 0 }

/-- A snapshot document whose cpu block is present and whose `online_cores`
key is present and non-null but holds the empty list. -/
def cexSnapC3 : Snap :=
  { timestamp := "t", machine_id := "m",
    cpu := some { online_cores := some [], governor := none, max_freq_khz := none },
    gpu := none, on_ac_power := true }

/-- A snapshot document requesting a governor different from the one in
`sys2`, used to show a successful restore need not change the hardware. -/
def snapPerf : Snap :=
  { timestamp := "t2", machine_id := "m",
    cpu := some { online_cores := some [0, 1], governor := some "performance",
                  max_freq_khz := some 3000000 },
    gpu := none, on_ac_power := true }

/-- An environment in which every hardware write fails and the GPU tool
exits non-zero, with no injected exception. -/
def oAllFail : Oracle :=
  { wOnline := fun _ => false, wGov := fun _ => false, wFreq := fun _ => false,
    gpuExit := 1, saveBackupOk := true, recordOk := true, clearOk := true,
    raiseAfter := none, restoreRaiseAfter := none }

/-! ## Basic lemmas about the core enumeration -/

theorem mem_insertLex {a b : Nat} {l : List Nat} :
    a ∈ insertLex b l ↔ a = b ∨ a ∈ l := by
  induction l with
  | nil => simp [insertLex]
  | cons c l ih =>
    simp only [insertLex]
    split
    · simp only [List.mem_cons, ih]
      tauto
    · simp [List.mem_cons]

theorem mem_sortLex {a : Nat} {l : List Nat} : a ∈ sortLex l ↔ a ∈ l := by
  induction l with
  | nil => simp [sortLex]
  | cons b l ih => simp [sortLex, mem_insertLex, ih]

theorem mem_cpuDirOrder {a n : Nat} : a ∈ cpuDirOrder n ↔ a < n := by
  simp [cpuDirOrder, mem_sortLex, List.mem_range]

theorem mem_get_online_cores {s : Sys} {c : Nat} :
    c ∈ get_online_cores s ↔ c < s.ncores ∧ coreListedOnline s c = true := by
  simp [get_online_cores, List.mem_filter, mem_cpuDirOrder]

/-! ## Lemmas about `set_online_cores` -/

theorem setCoresAux_trace (o : Oracle) (cores todo : List Nat) (s : Sys) :
    (setCoresAux o cores todo s).2 =
      (todo.filter (· ≠ 0)).map
        (fun n => Action.writeOnline n (if n ∈ cores then 1 else 0)) := by
  induction todo generalizing s with
  | nil => simp [setCoresAux]
  | cons n rest ih =>
    by_cases h : n = 0
    · subst h
      simp [setCoresAux, ih]
    · simp [setCoresAux, h, ih]

theorem setCoresAux_flag0 (o : Oracle) (cores todo : List Nat) (s : Sys) :
    (setCoresAux o cores todo s).1.onlineFlag 0 = s.onlineFlag 0 := by
  induction todo generalizing s with
  | nil => rfl
  | cons n rest ih =>
    by_cases h : n = 0
    · subst h; simp only [setCoresAux, if_pos rfl]; exact ih s
    · simp only [setCoresAux, if_neg h]
      rw [ih]
      split
      · simp [Ne.symm h]
      · rfl

theorem setCoresAux_only_flag (o : Oracle) (cores todo : List Nat) (s : Sys) :
    (setCoresAux o cores todo s).1 =
      { s with onlineFlag := (setCoresAux o cores todo s).1.onlineFlag } := by
  induction todo generalizing s with
  | nil => rfl
  | cons m rest ih =>
    by_cases h : m = 0
    · subst h
      simp only [setCoresAux, if_pos rfl]
      exact ih s
    · simp only [setCoresAux, if_neg h]
      split
      · rw [ih]
      · rw [ih]

theorem setCoresAux_flag (o : Oracle) (cores todo : List Nat) (s : Sys)
    (hw : ∀ n, o.wOnline n = true) (n : Nat) :
    (setCoresAux o cores todo s).1.onlineFlag n =
      if n ≠ 0 ∧ n ∈ todo then some (if n ∈ cores then 1 else 0)
      else s.onlineFlag n := by
  induction todo generalizing s with
  | nil => simp [setCoresAux]
  | cons m rest ih =>
    by_cases h : m = 0
    · subst h
      have e : setCoresAux o cores (0 :: rest) s = setCoresAux o cores rest s := rfl
      rw [e, ih]
      by_cases hn : n = 0
      · subst hn; simp
      · simp [hn]
    · simp only [setCoresAux, if_neg h, hw m, if_pos]
      rw [ih]
      by_cases hn : n = 0
      · subst hn; simp [Ne.symm h]
      · by_cases hm : n = m
        · subst hm
          simp [hn]
        · by_cases hr : n ∈ rest
          · simp [hn, hm, hr]
          · have hnc : n ∉ m :: rest := by
              simp [List.mem_cons, hm, hr]
            simp [hn, hm, hr, hnc]

theorem set_online_cores_sys (o : Oracle) (L : List Nat) (s : Sys)
    (hw : ∀ n, o.wOnline n = true) :
    (set_online_cores o L s).1 =
      { s with onlineFlag := fun n =>
          if n ≠ 0 ∧ n < s.ncores then some (if n ∈ L then 1 else 0)
          else s.onlineFlag n } := by
  rw [set_online_cores, setCoresAux_only_flag]
  congr 1
  funext n
  rw [setCoresAux_flag o L _ s hw n]
  simp [allCores, List.mem_range]

theorem setCoresAux_fail (o : Oracle) (cores todo : List Nat) (s : Sys)
    (hw : ∀ n, o.wOnline n = false) :
    (setCoresAux o cores todo s).1 = s := by
  induction todo generalizing s with
  | nil => rfl
  | cons m rest ih =>
    by_cases h : m = 0
    · subst h; exact ih s
    · simp only [setCoresAux, if_neg h, hw m]
      simpa using ih s

/-! ## Lemmas about `set_governor` and `set_max_freq` -/

theorem setGovAux_trace (o : Oracle) (g : String) (todo : List Nat) (s : Sys) :
    (setGovAux o g todo s).2 = todo.map (fun n => Action.writeGovernor n g) := by
  induction todo generalizing s with
  | nil => rfl
  | cons m rest ih => simp [setGovAux, ih]

theorem setGovAux_fail (o : Oracle) (g : String) (todo : List Nat) (s : Sys)
    (hw : ∀ n, o.wGov n = false) :
    (setGovAux o g todo s).1 = s := by
  induction todo generalizing s with
  | nil => rfl
  | cons m rest ih =>
    simp only [setGovAux, hw m]
    simpa using ih s

theorem setFreqAux_trace (o : Oracle) (khz : Int) (todo : List Nat) (s : Sys) :
    (setFreqAux o khz todo s).2 = todo.map (fun n => Action.writeMaxFreq n khz) := by
  induction todo generalizing s with
  | nil => rfl
  | cons m rest ih => simp [setFreqAux, ih]

theorem setFreqAux_fail (o : Oracle) (khz : Int) (todo : List Nat) (s : Sys)
    (hw : ∀ n, o.wFreq n = false) :
    (setFreqAux o khz todo s).1 = s := by
  induction todo generalizing s with
  | nil => rfl
  | cons m rest ih =>
    simp only [setFreqAux, hw m]
    simpa using ih s

theorem set_max_freq_out_of_range (o : Oracle) (khz : Int) (s : Sys)
    (h : khz < 400000 ∨ khz > 6000000) :
    set_max_freq o khz s = (s, []) := by
  simp [set_max_freq, h]

theorem set_max_freq_in_range_trace (o : Oracle) (khz : Int) (s : Sys)
    (h1 : 400000 ≤ khz) (h2 : khz ≤ 6000000) :
    (set_max_freq o khz s).2 =
      (get_online_cores s).map (fun n => Action.writeMaxFreq n khz) := by
  have h : ¬(khz < 400000 ∨ khz > 6000000) := by omega
  simp [set_max_freq, h, setFreqAux_trace]

/-! ## Lemmas about `set_power_limit` -/

theorem set_power_limit_out_of_range (o : Oracle) (w : Int) (s : Sys)
    (h : w < 10 ∨ w > 150) :
    set_power_limit o w s = (s, []) := by
  by_cases hg : s.gpuAvailable
  · simp [set_power_limit, hg, h]
  · simp [set_power_limit, hg]

theorem set_power_limit_in_range_trace (o : Oracle) (w : Int) (s : Sys)
    (hg : s.gpuAvailable = true) (h1 : 10 ≤ w) (h2 : w ≤ 150) :
    (set_power_limit o w s).2 = [Action.gpuTool ["nvidia-smi", "-pl", toString w]] := by
  have h : ¬(w < 10 ∨ w > 150) := by omega
  simp [set_power_limit, hg, h]

theorem set_power_limit_nonzero_exit (o : Oracle) (w : Int) (s : Sys)
    (he : o.gpuExit ≠ 0) :
    (set_power_limit o w s).1 = s := by
  by_cases hg : s.gpuAvailable
  · by_cases h : w < 10 ∨ w > 150
    · simp [set_power_limit, hg, h]
    · simp [set_power_limit, hg, h, he]
  · simp [set_power_limit, hg]

/-! ## Lemmas about running op and step lists -/

theorem runHwOp_fail (o : Oracle) (op : HwOp) (s : Sys)
    (hOn : ∀ n, o.wOnline n = false) (hG : ∀ n, o.wGov n = false)
    (hF : ∀ n, o.wFreq n = false) (hE : o.gpuExit ≠ 0) :
    (runHwOp o op s).1 = s := by
  cases op with
  | setOnlineCores l => exact setCoresAux_fail o l _ s hOn
  | setGovernor g => exact setGovAux_fail o g _ s hG
  | setMaxFreq k =>
    by_cases h : k < 400000 ∨ k > 6000000
    · simp [runHwOp, set_max_freq, h]
    · simp [runHwOp, set_max_freq, h, setFreqAux_fail o k _ s hF]
  | setGpuPowerLimit w => exact set_power_limit_nonzero_exit o w s hE
  | setGpuClockLimits mn mx => rfl

theorem runHwOps_fail (o : Oracle) (ops : List HwOp) (s : Sys)
    (hOn : ∀ n, o.wOnline n = false) (hG : ∀ n, o.wGov n = false)
    (hF : ∀ n, o.wFreq n = false) (hE : o.gpuExit ≠ 0) :
    (runHwOps o ops s).1 = s := by
  induction ops generalizing s with
  | nil => rfl
  | cons op rest ih =>
    simp only [runHwOps]
    rw [runHwOp_fail o op s hOn hG hF hE, ih]

theorem runSteps_backup (o : Oracle) (name now cfg : String) (steps : List Step)
    (p : Store × Sys) :
    (runSteps o name now cfg steps p).1.1.backup = p.1.backup := by
  induction steps generalizing p with
  | nil => rfl
  | cons stp rest ih =>
    cases stp with
    | hw op => simp [runSteps, runStep, ih]
    | record =>
      by_cases h : o.recordOk <;> simp [runSteps, runStep, h, ih]

theorem runSteps_hw_store (o : Oracle) (name now cfg : String) (l : List HwOp)
    (p : Store × Sys) :
    (runSteps o name now cfg (l.map Step.hw) p).1.1 = p.1 := by
  induction l generalizing p with
  | nil => rfl
  | cons op rest ih => simp [runSteps, runStep, ih]

theorem runSteps_append (o : Oracle) (name now cfg : String)
    (l1 l2 : List Step) (p : Store × Sys) :
    runSteps o name now cfg (l1 ++ l2) p =
      ((runSteps o name now cfg l2 (runSteps o name now cfg l1 p).1).1,
       (runSteps o name now cfg l1 p).2 ++
         (runSteps o name now cfg l2 (runSteps o name now cfg l1 p).1).2) := by
  induction l1 generalizing p with
  | nil => simp [runSteps]
  | cons stp rest ih => simp [runSteps, ih]

/-! ## Write kinds: each manager call only emits writes of its own kind -/

theorem runHwOp_kind (o : Oracle) (op : HwOp) (s : Sys) (a : Action)
    (ha : a ∈ (runHwOp o op s).2) : actionKind a = opKind op := by
  cases op with
  | setOnlineCores l =>
    simp only [runHwOp, set_online_cores] at ha
    rw [setCoresAux_trace] at ha
    simp only [List.mem_map] at ha
    obtain ⟨n, _, rfl⟩ := ha
    rfl
  | setGovernor g =>
    simp only [runHwOp, set_governor] at ha
    rw [setGovAux_trace] at ha
    simp only [List.mem_map] at ha
    obtain ⟨n, _, rfl⟩ := ha
    rfl
  | setMaxFreq k =>
    simp only [runHwOp, set_max_freq] at ha
    split at ha
    · simp at ha
    · rw [setFreqAux_trace] at ha
      simp only [List.mem_map] at ha
      obtain ⟨n, _, rfl⟩ := ha
      rfl
  | setGpuPowerLimit w =>
    simp only [runHwOp, set_power_limit] at ha
    split at ha
    · simp at ha
    · split at ha
      · simp at ha
      · simp only [List.mem_singleton] at ha
        subst ha
        rfl
  | setGpuClockLimits mn mx => simp [runHwOp, set_clock_limits] at ha

theorem runHwOps_kind (o : Oracle) (ops : List HwOp) (s : Sys) (a : Action)
    (ha : a ∈ (runHwOps o ops s).2) : ∃ op ∈ ops, actionKind a = opKind op := by
  induction ops generalizing s with
  | nil => simp [runHwOps] at ha
  | cons op rest ih =>
    simp only [runHwOps, List.mem_append] at ha
    rcases ha with h | h
    · exact ⟨op, List.mem_cons_self op rest, runHwOp_kind o op s a h⟩
    · obtain ⟨op', hmem, hk⟩ := ih _ h
      exact ⟨op', List.mem_cons_of_mem _ hmem, hk⟩

theorem runHwOps_sorted (o : Oracle) (ops : List HwOp) (s : Sys)
    (hs : ops.Pairwise (fun x y => opKind x ≤ opKind y)) :
    ((runHwOps o ops s).2.map actionKind).Pairwise (· ≤ ·) := by
  induction ops generalizing s with
  | nil => simp [runHwOps]
  | cons op rest ih =>
    rw [List.pairwise_cons] at hs
    simp only [runHwOps, List.map_append]
    rw [List.pairwise_append]
    refine ⟨?_, ih _ hs.2, ?_⟩
    · apply List.pairwise_of_forall_mem_list
      intro x hx y hy
      simp only [List.mem_map] at hx hy
      obtain ⟨a, ha, rfl⟩ := hx
      obtain ⟨b, hb, rfl⟩ := hy
      rw [runHwOp_kind o op s a ha, runHwOp_kind o op s b hb]
    · intro x hx y hy
      simp only [List.mem_map] at hx hy
      obtain ⟨a, ha, rfl⟩ := hx
      obtain ⟨b, hb, rfl⟩ := hy
      rw [runHwOp_kind o op s a ha]
      obtain ⟨op', hmem, hk⟩ := runHwOps_kind o rest _ b hb
      rw [hk]
      exact hs.1 op' hmem

theorem restoreOps_sorted (snap : Snap) :
    (restoreOps snap).Pairwise (fun x y => opKind x ≤ opKind y) := by
  rcases snap with ⟨ts, mid, cpu, gpu⟩
  rcases cpu with _ | ⟨oc, gov, mf⟩ <;>
    rcases gpu with _ | ⟨av, be, pl, ck⟩ <;>
      simp only [restoreOps] <;>
      (try rcases oc with _ | l) <;>
      (try rcases gov with _ | g) <;>
      (try rcases mf with _ | k) <;>
      (try rcases pl with _ | w) <;>
      (try cases av) <;>
      (try simp_all [List.pairwise_cons, opKind]) <;>
      (try split_ifs) <;>
      (try simp_all [List.pairwise_cons, opKind])

theorem mem_restoreOps_setOnlineCores (snap : Snap) (l : List Nat) :
    HwOp.setOnlineCores l ∈ restoreOps snap ↔
      ∃ c, snap.cpu = some c ∧ c.online_cores = some l ∧ l ≠ [] := by
  rcases snap with ⟨ts, mid, cpu, gpu⟩
  rcases cpu with _ | ⟨oc, gov, mf⟩ <;>
    rcases gpu with _ | ⟨av, be, pl, ck⟩ <;>
      simp only [restoreOps] <;>
      (try rcases oc with _ | l') <;>
      (try rcases gov with _ | g') <;>
      (try rcases mf with _ | k') <;>
      (try rcases pl with _ | w') <;>
      (try cases av) <;>
      (try simp_all) <;>
      (try split_ifs) <;>
      (try simp_all) <;>
      (try tauto) <;>
      (try aesop)

theorem mem_restoreOps_setGovernor (snap : Snap) (g : String) :
    HwOp.setGovernor g ∈ restoreOps snap ↔
      ∃ c, snap.cpu = some c ∧ c.governor = some g ∧ g ≠ "" := by
  rcases snap with ⟨ts, mid, cpu, gpu⟩
  rcases cpu with _ | ⟨oc, gov, mf⟩ <;>
    rcases gpu with _ | ⟨av, be, pl, ck⟩ <;>
      simp only [restoreOps] <;>
      (try rcases oc with _ | l') <;>
      (try rcases gov with _ | g') <;>
      (try rcases mf with _ | k') <;>
      (try rcases pl with _ | w') <;>
      (try cases av) <;>
      (try simp_all) <;>
      (try split_ifs) <;>
      (try simp_all) <;>
      (try tauto) <;>
      (try aesop)

theorem mem_restoreOps_setMaxFreq (snap : Snap) (k : Int) :
    HwOp.setMaxFreq k ∈ restoreOps snap ↔
      ∃ c, snap.cpu = some c ∧ c.max_freq_khz = some k ∧ k ≠ 0 := by
  rcases snap with ⟨ts, mid, cpu, gpu⟩
  rcases cpu with _ | ⟨oc, gov, mf⟩ <;>
    rcases gpu with _ | ⟨av, be, pl, ck⟩ <;>
      simp only [restoreOps] <;>
      (try rcases oc with _ | l') <;>
      (try rcases gov with _ | g') <;>
      (try rcases mf with _ | k') <;>
      (try rcases pl with _ | w') <;>
      (try cases av) <;>
      (try simp_all) <;>
      (try split_ifs) <;>
      (try simp_all) <;>
      (try tauto) <;>
      (try aesop)

theorem mem_restoreOps_setGpuPowerLimit (snap : Snap) (w : Int) :
    HwOp.setGpuPowerLimit w ∈ restoreOps snap ↔
      ∃ g, snap.gpu = some g ∧ g.available = true ∧ g.power_limit_w = some w ∧ w ≠ 0 := by
  rcases snap with ⟨ts, mid, cpu, gpu⟩
  rcases cpu with _ | ⟨oc, gov, mf⟩ <;>
    rcases gpu with _ | ⟨av, be, pl, ck⟩ <;>
      simp only [restoreOps] <;>
      (try rcases oc with _ | l') <;>
      (try rcases gov with _ | g') <;>
      (try rcases mf with _ | k') <;>
      (try rcases pl with _ | w') <;>
      (try cases av) <;>
      (try simp_all) <;>
      (try split_ifs) <;>
      (try simp_all) <;>
      (try tauto) <;>
      (try aesop)

theorem runSteps_modeSteps_store (o : Oracle) (name now cfg : String)
    (gpuAvail : Bool) (m : Mode) (p : Store × Sys)
    (hrec : o.recordOk = true) :
    (runSteps o name now cfg (modeSteps gpuAvail m) p).1.1 =
      { p.1 with active := some ⟨name, now, cfg⟩ } := by
  rw [modeSteps, runSteps_append]
  simp [runSteps_hw_store, runSteps, runStep, hrec, -List.map_append]

theorem zero_mem_get_online_cores (s : Sys) (h : 0 < s.ncores) :
    0 ∈ get_online_cores s := by
  rw [mem_get_online_cores]
  exact ⟨h, by simp [coreListedOnline]⟩

/-! ## Claims -/

/-- C5: for every integer `khz` with `khz < 400000` or `khz > 6000000`,
`set_max_freq khz` performs no write to any core's `scaling_max_freq`
attribute and leaves the state unchanged; values inside the range pass the
guard and a write is attempted on every online core. -/
theorem set_max_freq_range_guard (o : Oracle) (khz : Int) (s : Sys) :
    ((khz < 400000 ∨ khz > 6000000) → set_max_freq o khz s = (s, [])) ∧
    (400000 ≤ khz → khz ≤ 6000000 →
      (set_max_freq o khz s).2 =
        (get_online_cores s).map (fun n => Action.writeMaxFreq n khz)) :=
  ⟨fun h => set_max_freq_out_of_range o khz s h,
   fun h1 h2 => set_max_freq_in_range_trace o khz s h1 h2⟩

theorem set_max_freq_range_guard_witness :
    set_max_freq oracleOk 300000 sys2 = (sys2, []) ∧
    (set_max_freq oracleOk 2500000 sys2).2 =
      (get_online_cores sys2).map (fun n => Action.writeMaxFreq n 2500000) :=
  ⟨(set_max_freq_range_guard oracleOk 300000 sys2).1 (Or.inl (by decide)),
   (set_max_freq_range_guard oracleOk 2500000 sys2).2 (by decide) (by decide)⟩

/-- C6: for every integer `w` with `w < 10` or `w > 150`, `set_power_limit w`
never invokes the GPU vendor tool (the trace holds no invocation and the
state is unchanged); values inside [10, 150] pass the guard and, with an
available GPU, the tool is invoked exactly once, while a non-zero tool exit
is only logged: the call still returns normally, leaving the limit
unchanged. -/
theorem set_power_limit_range_guard (o : Oracle) (w : Int) (s : Sys) :
    ((w < 10 ∨ w > 150) → set_power_limit o w s = (s, [])) ∧
    (10 ≤ w → w ≤ 150 → s.gpuAvailable = true →
      (set_power_limit o w s).2 = [Action.gpuTool ["nvidia-smi", "-pl", toString w]]) ∧
    (o.gpuExit ≠ 0 → (set_power_limit o w s).1 = s) :=
  ⟨fun h => set_power_limit_out_of_range o w s h,
   fun h1 h2 hg => set_power_limit_in_range_trace o w s hg h1 h2,
   fun he => set_power_limit_nonzero_exit o w s he⟩

theorem set_power_limit_range_guard_witness :
    set_power_limit oracleOk 200 sys12 = (sys12, []) ∧
    (set_power_limit oracleOk 100 sys12).2 =
      [Action.gpuTool ["nvidia-smi", "-pl", toString (100 : Int)]] ∧
    (set_power_limit oAllFail 100 sys12).1 = sys12 :=
  ⟨(set_power_limit_range_guard oracleOk 200 sys12).1 (Or.inr (by decide)),
   (set_power_limit_range_guard oracleOk 100 sys12).2.1 (by decide) (by decide) rfl,
   (set_power_limit_range_guard oAllFail 100 sys12).2.2 (by decide)⟩

/-- C7: for every name that does not resolve in the loaded mode catalog
(including a catalog that fails to load), `apply_mode` reports failure
without writing the backup file or the active-mode record and without
issuing any hardware write: the store, the hardware state and the trace are
untouched. -/
theorem apply_mode_unknown_mode (o : Oracle)
    (modes : Option (List (String × Mode))) (name now cfg : String)
    (st : Store) (s : Sys) (h : lookupMode modes name = none) :
    apply_mode o modes name now cfg st s = ((st, s, []), false) := by
  simp [apply_mode, h]

theorem apply_mode_unknown_mode_witness :
    apply_mode oracleOk (some cat1) "nonexistent" "t0" "cfg" st0 sys2 =
      ((st0, sys2, []), false) :=
  apply_mode_unknown_mode oracleOk (some cat1) "nonexistent" "t0" "cfg" st0 sys2 rfl

/-- C1: whenever an exception is raised during the application phase of
`apply_mode` (after the backup was written, i.e. the injected raise point
lies strictly inside the step sequence), the call reports failure — never
success — for every rollback outcome, and when the backup write succeeded
the final hardware state is the result of reloading that backup (the
pre-apply snapshot) and replaying it through `Snapshot.restore` on the
partially applied state. -/
theorem apply_mode_raise_reports_failure (o : Oracle)
    (modes : Option (List (String × Mode))) (name now cfg : String)
    (st : Store) (s : Sys) (mode : Mode) (k : Nat)
    (hm : lookupMode modes name = some mode)
    (hk : o.raiseAfter = some k)
    (hlt : k < (modeSteps s.gpuAvailable mode).length) :
    (apply_mode o modes name now cfg st s).2 = false ∧
    (o.saveBackupOk = true →
      (apply_mode o modes name now cfg st s).1.2.1 =
        (Snapshot.restore o (Snapshot.dump s now)
          (runSteps o name now cfg ((modeSteps s.gpuAvailable mode).take k)
            ({ st with backup := some (Snapshot.dump s now) }, s)).1.2).1.1) := by
  constructor
  · simp only [apply_mode, hm, hk]
    rw [if_neg (not_le.mpr hlt)]
    split <;> rfl
  · intro hsave
    simp only [apply_mode, hm, hk, hsave, if_true]
    rw [if_neg (not_le.mpr hlt)]
    have hb : Snapshot.load (runSteps o name now cfg
        ((modeSteps s.gpuAvailable mode).take k)
        ({ st with backup := some (Snapshot.dump s now) }, s)).1.1 =
        some (Snapshot.dump s now) := by
      rw [Snapshot.load, runSteps_backup]
    rw [hb]

theorem apply_mode_raise_reports_failure_witness :
    (apply_mode oRollOk (some cat1) "turbo" "t0" "cfg" st0 sys2).2 = false ∧
    (oRollOk.saveBackupOk = true →
      (apply_mode oRollOk (some cat1) "turbo" "t0" "cfg" st0 sys2).1.2.1 =
        (Snapshot.restore oRollOk (Snapshot.dump sys2 "t0")
          (runSteps oRollOk "turbo" "t0" "cfg"
            ((modeSteps sys2.gpuAvailable turboMode).take 0)
            ({ st0 with backup := some (Snapshot.dump sys2 "t0") }, sys2)).1.2).1.1) :=
  apply_mode_raise_reports_failure oRollOk (some cat1) "turbo" "t0" "cfg" st0 sys2
    turboMode 0 rfl rfl (by decide)

/-- C8: the spec requires an apply-time failure whose rollback failed to be
reported distinctly from one whose rollback succeeded, but the code ignores
the result of `Snapshot.restore` in the rollback path and returns `False`
identically in both cases: in a run whose rollback restore succeeds and in
a run whose rollback restore itself raises (and reports failure), the
caller receives exactly the same outcome. -/
theorem apply_mode_rollback_outcome_identical :
    (Snapshot.restore oRollOk (Snapshot.dump sys2 "t0") sys2).2 = true ∧
    (Snapshot.restore oRollFail (Snapshot.dump sys2 "t0") sys2).2 = false ∧
    (apply_mode oRollOk (some cat1) "turbo" "t0" "cfg" st0 sys2).2 = false ∧
    (apply_mode oRollFail (some cat1) "turbo" "t0" "cfg" st0 sys2).2 = false := by
  refine ⟨by decide, by decide, by decide, by decide⟩

/-- C2: `restore_backup` with no loadable backup reports failure and changes
no hardware or persisted state; the active-mode record is deleted when and
only when the backup loads and `Snapshot.restore` succeeds (on a reported
failure the store keeps its previous active record); and after a successful
`apply_mode name` the active record holds `name` while after a subsequent
successful `restore_backup` it is absent (environment with working
bookkeeping writes and no injected exceptions). -/
theorem restore_backup_reports_and_clears (o o2 : Oracle)
    (modes : Option (List (String × Mode))) (name now cfg : String)
    (st : Store) (s : Sys) (mode : Mode) :
    (st.backup = none → restore_backup o st s = ((st, s, []), false)) ∧
    (o.clearOk = true →
      ((restore_backup o st s).2 = true → (restore_backup o st s).1.1.active = none) ∧
      ((restore_backup o st s).2 = false →
        (restore_backup o st s).1.1.active = st.active)) ∧
    (lookupMode modes name = some mode → o2.raiseAfter = none →
     o2.recordOk = true → o2.saveBackupOk = true → o2.clearOk = true →
     o2.restoreRaiseAfter = none →
      (apply_mode o2 modes name now cfg st s).2 = true ∧
      (apply_mode o2 modes name now cfg st s).1.1.active = some ⟨name, now, cfg⟩ ∧
      (restore_backup o2 (apply_mode o2 modes name now cfg st s).1.1
         (apply_mode o2 modes name now cfg st s).1.2.1).2 = true ∧
      (restore_backup o2 (apply_mode o2 modes name now cfg st s).1.1
         (apply_mode o2 modes name now cfg st s).1.2.1).1.1.active = none) := by
  refine ⟨?_, ?_, ?_⟩
  · intro h
    simp [restore_backup, Snapshot.load, h]
  · intro hclear
    rcases hb : st.backup with _ | b
    · constructor
      · intro hfalse
        simp [restore_backup, Snapshot.load, hb] at hfalse
      · intro _
        simp [restore_backup, Snapshot.load, hb]
    · simp only [restore_backup, Snapshot.load, hb]
      cases hr : (Snapshot.restore o b s).2
      · simp [hr]
      · simp [hr, hclear]
  · intro hm hra hrec hsave hclear hrr
    have happ : apply_mode o2 modes name now cfg st s =
        (((runSteps o2 name now cfg (modeSteps s.gpuAvailable mode)
             ({ st with backup := some (Snapshot.dump s now) }, s)).1.1,
          (runSteps o2 name now cfg (modeSteps s.gpuAvailable mode)
             ({ st with backup := some (Snapshot.dump s now) }, s)).1.2,
          (runSteps o2 name now cfg (modeSteps s.gpuAvailable mode)
             ({ st with backup := some (Snapshot.dump s now) }, s)).2), true) := by
      simp only [apply_mode, hm, hra, hsave, if_true]
    have hstore := runSteps_modeSteps_store o2 name now cfg s.gpuAvailable mode
        ({ st with backup := some (Snapshot.dump s now) }, s) hrec
    refine ⟨by rw [happ], ?_, ?_, ?_⟩
    · rw [happ]
      show (runSteps o2 name now cfg (modeSteps s.gpuAvailable mode)
          ({ st with backup := some (Snapshot.dump s now) }, s)).1.1.active = _
      rw [hstore]
    · rw [happ]
      show (restore_backup o2
          (runSteps o2 name now cfg (modeSteps s.gpuAvailable mode)
             ({ st with backup := some (Snapshot.dump s now) }, s)).1.1 _).2 = true
      rw [hstore]
      simp [restore_backup, Snapshot.load, Snapshot.restore, hrr]
    · rw [happ]
      show (restore_backup o2
          (runSteps o2 name now cfg (modeSteps s.gpuAvailable mode)
             ({ st with backup := some (Snapshot.dump s now) }, s)).1.1 _).1.1.active = none
      rw [hstore]
      simp [restore_backup, Snapshot.load, Snapshot.restore, hrr, hclear]

theorem restore_backup_reports_and_clears_witness :
    (apply_mode oracleOk (some cat1) "turbo" "t0" "cfg" st0 sys2).2 = true ∧
    (apply_mode oracleOk (some cat1) "turbo" "t0" "cfg" st0 sys2).1.1.active =
      some ⟨"turbo", "t0", "cfg"⟩ ∧
    (restore_backup oracleOk (apply_mode oracleOk (some cat1) "turbo" "t0" "cfg" st0 sys2).1.1
       (apply_mode oracleOk (some cat1) "turbo" "t0" "cfg" st0 sys2).1.2.1).2 = true ∧
    (restore_backup oracleOk (apply_mode oracleOk (some cat1) "turbo" "t0" "cfg" st0 sys2).1.1
       (apply_mode oracleOk (some cat1) "turbo" "t0" "cfg" st0 sys2).1.2.1).1.1.active = none :=
  (restore_backup_reports_and_clears oracleOk oracleOk (some cat1) "turbo" "t0" "cfg"
      st0 sys2 turboMode).2.2 rfl rfl rfl rfl rfl rfl

/-- C3 counterexample: a snapshot whose `cpu.online_cores` key is present
and non-null but holds the empty list is NOT replayed: `Snapshot.restore`
makes no manager call and issues no write at all for it, refuting "replays
exactly the fields present and non-null". -/
theorem restore_present_nonnull_field_skipped :
    cexSnapC3.cpu.map CpuSnap.online_cores = some (some []) ∧
    restoreOps cexSnapC3 = [] ∧
    (Snapshot.restore oracleOk cexSnapC3 sys2).1.2 = [] ∧
    (Snapshot.restore oracleOk cexSnapC3 sys2).1.1 = sys2 :=
  ⟨rfl, rfl, rfl, rfl⟩

/-- C3 amended: `Snapshot.restore` replays exactly the fields that are
present with a truthy value (a non-empty core list, a non-empty governor
string, a non-zero frequency, and — only when the snapshot's GPU block is
marked available — a non-zero power limit); fields absent, null, empty or
zero cause no manager call, every emitted write belongs to one of the
replayed fields, and the writes appear in the fixed order online cores,
then governor, then max frequency, then GPU power limit. -/
theorem restore_replays_truthy_fields_in_order (o : Oracle) (snap : Snap)
    (s : Sys) (hraise : o.restoreRaiseAfter = none) :
    (∀ l, HwOp.setOnlineCores l ∈ restoreOps snap ↔
       ∃ c, snap.cpu = some c ∧ c.online_cores = some l ∧ l ≠ []) ∧
    (∀ g, HwOp.setGovernor g ∈ restoreOps snap ↔
       ∃ c, snap.cpu = some c ∧ c.governor = some g ∧ g ≠ "") ∧
    (∀ k, HwOp.setMaxFreq k ∈ restoreOps snap ↔
       ∃ c, snap.cpu = some c ∧ c.max_freq_khz = some k ∧ k ≠ 0) ∧
    (∀ w, HwOp.setGpuPowerLimit w ∈ restoreOps snap ↔
       ∃ g, snap.gpu = some g ∧ g.available = true ∧
            g.power_limit_w = some w ∧ w ≠ 0) ∧
    (∀ a ∈ (Snapshot.restore o snap s).1.2,
       ∃ op ∈ restoreOps snap, actionKind a = opKind op) ∧
    ((Snapshot.restore o snap s).1.2.map actionKind).Pairwise (· ≤ ·) := by
  have htr : (Snapshot.restore o snap s).1.2 = (runHwOps o (restoreOps snap) s).2 := by
    simp [Snapshot.restore, hraise]
  refine ⟨fun l => mem_restoreOps_setOnlineCores snap l,
          fun g => mem_restoreOps_setGovernor snap g,
          fun k => mem_restoreOps_setMaxFreq snap k,
          fun w => mem_restoreOps_setGpuPowerLimit snap w, ?_, ?_⟩
  · intro a ha
    rw [htr] at ha
    exact runHwOps_kind o _ s a ha
  · rw [htr]
    exact runHwOps_sorted o _ s (restoreOps_sorted snap)

theorem restore_replays_truthy_fields_in_order_witness :
    (HwOp.setGovernor "performance" ∈ restoreOps snapPerf ↔
       ∃ c, snapPerf.cpu = some c ∧ c.governor = some "performance" ∧
            "performance" ≠ "") ∧
    ((Snapshot.restore oracleOk snapPerf sys2).1.2.map actionKind).Pairwise (· ≤ ·) :=
  ⟨(restore_replays_truthy_fields_in_order oracleOk snapPerf sys2 rfl).2.1 "performance",
   (restore_replays_truthy_fields_in_order oracleOk snapPerf sys2 rfl).2.2.2.2.2⟩

/-- C4 counterexample: on a two-core machine, `set_online_cores [1, 0]`
followed by `get_online_cores` returns `[0, 1]`, not the list `[1, 0]` that
was passed, although `[1, 0]` contains 0, contains no id above the highest
known core, and no write failed: the result is produced in directory
enumeration order, not in the order of the request. -/
theorem set_get_online_cores_order_cex :
    0 ∈ [1, 0] ∧ (∀ i ∈ [1, 0], i < sys2.ncores) ∧
    get_online_cores (set_online_cores oracleOk [1, 0] sys2).1 = [0, 1] ∧
    get_online_cores (set_online_cores oracleOk [1, 0] sys2).1 ≠ [1, 0] := by
  refine ⟨by decide, by decide, by decide, by decide⟩

/-- C4 amended: for every list `L` of core ids that contains 0 and no id
above the highest known core, if no per-core write fails then
`set_online_cores L` followed by `get_online_cores` returns the list whose
members are exactly the ids of `L`, listed in the fixed directory-name
enumeration order (lexicographic by directory name) rather than in `L`'s
own order — it equals the enumeration order filtered by membership in `L`
— and repeating `set_online_cores L` leaves the hardware state unchanged
(idempotence). -/
theorem set_get_online_cores_members (o : Oracle) (L : List Nat) (s : Sys)
    (h0 : 0 ∈ L) (hmax : ∀ i ∈ L, i < s.ncores)
    (hw : ∀ n, o.wOnline n = true) :
    get_online_cores (set_online_cores o L s).1 =
      (cpuDirOrder s.ncores).filter (fun c => decide (c ∈ L)) ∧
    (∀ c, c ∈ get_online_cores (set_online_cores o L s).1 ↔ c ∈ L) ∧
    (set_online_cores o L (set_online_cores o L s).1).1 =
      (set_online_cores o L s).1 := by
  have hs' := set_online_cores_sys o L s hw
  refine ⟨?_, ?_, ?_⟩
  · rw [hs', get_online_cores]
    apply List.filter_congr
    intro c hc
    rw [mem_cpuDirOrder] at hc
    by_cases hc0 : c = 0
    · subst hc0
      simp [coreListedOnline, h0]
    · by_cases hm : c ∈ L <;> simp [coreListedOnline, hc0, hc, hm]
  · intro c
    rw [mem_get_online_cores, hs']
    by_cases hc : c = 0
    · subst hc
      simp [coreListedOnline, hmax 0 h0, h0]
    · by_cases hlt : c < s.ncores
      · simp only [coreListedOnline, hc, if_neg, hlt, and_true, true_and]
        by_cases hm : c ∈ L <;> simp [coreListedOnline, hc, hm, hlt]
      · simp only [coreListedOnline, hc]
        constructor
        · rintro ⟨h1, _⟩
          exact absurd h1 hlt
        · intro hmem
          exact absurd (hmax c hmem) hlt
  · rw [hs']
    rw [set_online_cores_sys o L _ hw]
    apply Sys.ext <;> try rfl
    funext n
    by_cases hcond : n ≠ 0 ∧ n < s.ncores <;> simp [hcond]

theorem set_get_online_cores_members_witness :
    get_online_cores (set_online_cores oracleOk [0, 2, 10] sys12).1 =
      (cpuDirOrder sys12.ncores).filter (fun c => decide (c ∈ [0, 2, 10])) ∧
    (∀ c, c ∈ get_online_cores (set_online_cores oracleOk [0, 2, 10] sys12).1 ↔
       c ∈ [0, 2, 10]) ∧
    (set_online_cores oracleOk [0, 2, 10]
        (set_online_cores oracleOk [0, 2, 10] sys12).1).1 =
      (set_online_cores oracleOk [0, 2, 10] sys12).1 :=
  set_get_online_cores_members oracleOk [0, 2, 10] sys12 (by decide) (by decide)
    (fun _ => rfl)

/-- C9: core 0 is never offline-able: `get_online_cores` always lists core 0
(on a machine with at least one core directory), `set_online_cores` never
attempts a write to core 0's online flag and leaves that flag unchanged for
every requested list, and every captured snapshot's `cpu.online_cores` list
contains 0. -/
theorem core0_always_online (o : Oracle) (L : List Nat) (s : Sys) (now : String)
    (h : 0 < s.ncores) :
    0 ∈ get_online_cores s ∧
    (∀ v, Action.writeOnline 0 v ∉ (set_online_cores o L s).2) ∧
    (set_online_cores o L s).1.onlineFlag 0 = s.onlineFlag 0 ∧
    (∃ c l, (Snapshot.dump s now).cpu = some c ∧ c.online_cores = some l ∧ 0 ∈ l) := by
  refine ⟨zero_mem_get_online_cores s h, ?_, ?_, ?_⟩
  · intro v hv
    rw [set_online_cores, setCoresAux_trace] at hv
    simp only [List.mem_map, List.mem_filter] at hv
    obtain ⟨n, ⟨_, hn0⟩, heq⟩ := hv
    cases heq
    simp at hn0
  · exact setCoresAux_flag0 o L (allCores s) s
  · exact ⟨cpu_get_current_state s, get_online_cores s, rfl, rfl,
      zero_mem_get_online_cores s h⟩

theorem core0_always_online_witness :
    0 ∈ get_online_cores sys2 ∧
    (∀ v, Action.writeOnline 0 v ∉ (set_online_cores oracleOk [1] sys2).2) ∧
    (set_online_cores oracleOk [1] sys2).1.onlineFlag 0 = sys2.onlineFlag 0 ∧
    (∃ c l, (Snapshot.dump sys2 "t0").cpu = some c ∧
       c.online_cores = some l ∧ 0 ∈ l) :=
  core0_always_online oracleOk [1] sys2 "t0" (by decide)

/-- C10: `Snapshot.restore` returns success even when every underlying
hardware write it triggers fails (per-core online, governor and frequency
writes fail, the GPU tool exits non-zero): the failures are absorbed inside
the managers, never reach restore's exception handler, and the hardware
state is left entirely unchanged — so a `true` result does not imply the
live state matches the snapshot. -/
theorem restore_true_despite_write_failures (o : Oracle) (snap : Snap) (s : Sys)
    (hOn : ∀ n, o.wOnline n = false) (hG : ∀ n, o.wGov n = false)
    (hF : ∀ n, o.wFreq n = false) (hE : o.gpuExit ≠ 0)
    (hR : o.restoreRaiseAfter = none) :
    (Snapshot.restore o snap s).2 = true ∧ (Snapshot.restore o snap s).1.1 = s := by
  constructor
  · simp [Snapshot.restore, hR]
  · simp only [Snapshot.restore, hR]
    exact runHwOps_fail o _ s hOn hG hF hE

theorem restore_true_despite_write_failures_witness :
    ((Snapshot.restore oAllFail snapPerf sys2).2 = true ∧
     (Snapshot.restore oAllFail snapPerf sys2).1.1 = sys2) ∧
    get_governor sys2 = some "powersave" ∧
    (∃ c, snapPerf.cpu = some c ∧ c.governor = some "performance") :=
  ⟨restore_true_despite_write_failures oAllFail snapPerf sys2
      (fun _ => rfl) (fun _ => rfl) (fun _ => rfl) (by decide) rfl,
   rfl, ⟨_, rfl, rfl⟩⟩

end PowerMode
